import Mathlib

/-!
Formal model of the MCP-UI Embedding Protocol SDK (version 1.0.0).

The development shallowly embeds the protocol engines of the SDK:

* the client engine (class MCPUI in src/client/index.ts) as an explicit state
  record together with a step function for the window message listener;
* the host engine (classes EmbeddedUI and MCUHost in src/host/index.ts) as a
  state record with a step function for the permission negotiation algorithm
  and the token issuance path;
* the JWT utilities (src/client jwt and src/host jwt) with platform
  primitives (network fetch, Web Crypto sign/verify, the base64url and JSON
  round trip of the fixed-shape token segments) abstracted as oracles.

Stateful methods become functions from a state record to a step-result record
carrying the successor state, the local events fired (in order), the messages
posted to the peer (with their target origin), and the number of asynchronous
token validations started.
-/

/-- JS-Set-like add on lists: appends the element only when absent, preserving
insertion order (models Set.prototype.add under reference equality). -/
def setAdd {α : Type} [DecidableEq α] (l : List α) (x : α) : List α :=
  if x ∈ l then l else l ++ [x]

/-! ## Protocol version compatibility (src/types PROTOCOL_VERSION, MCPUI.isCompatibleVersion) -/

/-- Protocol version supported by this SDK (src/types/index.ts). -/
def PROTOCOL_VERSION : String := "1.0.0"

/-- Value of a decimal digit string, as accumulated by JS Number.parseInt. -/
def digitsVal (ds : List Char) : Nat :=
  ds.foldl (fun a c => 10 * a + (c.toNat - 48)) 0

/-- Model of JS Number.parseInt(s, 10) on the strings that occur here: the
longest digit prefix is parsed; an empty digit prefix yields NaN (none). -/
def jsParseInt (cs : List Char) : Option Nat :=
  let ds := cs.takeWhile Char.isDigit
  if ds = [] then none else some (digitsVal ds)

/-- Model of v.split(".")[0]: the characters before the first dot. -/
def versionMajorSeg (v : String) : List Char :=
  v.data.takeWhile (fun c => c != '.')

/-- The version comparison performed by MCPUI.isCompatibleVersion, generalized
over the engine's own version string exactly as the code computes it: parse
the MAJOR segment of each side with parseInt and require strict equality
(NaN compares unequal to everything, including NaN). -/
def compatibleVersions (hostVersion ownVersion : String) : Bool :=
  match jsParseInt (versionMajorSeg hostVersion), jsParseInt (versionMajorSeg ownVersion) with
  | some hostMajor, some ourMajor => hostMajor == ourMajor
  | _, _ => false

/-- MCPUI.isCompatibleVersion: the host version against PROTOCOL_VERSION. -/
def MCPUI.isCompatibleVersion (hostVersion : String) : Bool :=
  compatibleVersions hostVersion PROTOCOL_VERSION

/-! ## JWT data model (src/host jwt utilities, src/client jwt utilities) -/

/-- JWT header (interface JWTHeader). -/
structure JWTHeader where
  alg : String
  typ : String
  kid : String
deriving DecidableEq

/-- JWT payload (interface JWTPayload). -/
structure JWTPayload where
  iss : String
  sub : String
  aud : String
  exp : Nat
  scope : List String
  nonce : String
deriving DecidableEq

/-- A compact token. The three wire segments (base64url of the JSON header, of
the JSON payload, and the signature bytes) are carried structurally: btoa or
atob and JSON.stringify or JSON.parse are platform builtins whose composition
round-trips exactly for this fixed payload shape, so the serialization layer is
modeled as the identity transport it implements. The signature field is the
opaque output of the crypto.subtle.sign oracle. -/
structure Jwt where
  header : JWTHeader
  payload : JWTPayload
  signature : String
deriving DecidableEq

/-- Host-side createToken (host jwt utilities): builds the RS256 header with
the given key id and assembles the token; the signature bytes come from the
crypto.subtle.sign oracle and are passed in. -/
def JWTFunctions.createToken (payload : JWTPayload) (signatureBytes : String)
    (keyId : String) : Jwt :=
  { header := { alg := "RS256", typ := "JWT", kid := keyId }
    payload := payload
    signature := signatureBytes }

/-- Client-side decode (client jwt utilities): splits the token and parses the
header and payload segments without any verification. Structural tokens always
have exactly three segments, so the malformed-format throw is unreachable in
this model. -/
def JWTUtils.decode (token : Jwt) : JWTHeader × JWTPayload :=
  (token.header, token.payload)

/-- JSON Web Key (interface JWK). -/
structure JWK where
  kty : String
  kid : String
  use : String
  alg : String
  n : String
  e : String
deriving DecidableEq

/-- JSON Web Key Set (interface JWKS). -/
structure JWKS where
  keys : List JWK
deriving DecidableEq

/-- Environment for JWTUtils.validate: the result of fetching the JWKS from
the jwks url (none models a network error or a non-ok response, which the
try/catch turns into a false result) and the crypto.subtle.verify oracle. -/
structure ValidationEnv where
  fetchedJWKS : Option JWKS
  verifySignatureOracle : Jwt → JWK → Bool

/-- Client-side validate (client jwt utilities): decode, reject a token whose
exp is truthy (nonzero) and strictly below the current time, fetch the JWKS,
locate the key matching the header kid, and defer to the signature oracle.
Any failure along the way yields false. -/
def JWTUtils.validate (env : ValidationEnv) (token : Jwt) (now : Nat) : Bool :=
  let payload := (JWTUtils.decode token).2
  if payload.exp ≠ 0 ∧ payload.exp < now then false
  else
    match env.fetchedJWKS with
    | none => false
    | some jwks =>
      match jwks.keys.find? (fun k => k.kid == token.header.kid) with
      | none => false
      | some key => env.verifySignatureOracle token key

/-! ## Host token service (class MCUHost, src/host/index.ts) -/

/-- Configuration state of MCUHost relevant to token issuance. -/
structure MCUHost where
  jwksUrl : String
  issuer : String
  tokenExpiration : Nat
deriving DecidableEq

/-- The MCUHost constructor: tokenExpiration defaults to 3600 seconds; the
TS truthiness guard (if (options.tokenExpiration)) also keeps the default for
an explicit 0. -/
def MCUHost.create (jwksUrl issuer : String) (tokenExpiration : Option Nat) : MCUHost :=
  { jwksUrl := jwksUrl
    issuer := issuer
    tokenExpiration :=
      match tokenExpiration with
      | some n => if n ≠ 0 then n else 3600
      | none => 3600 }

/-- MCUHost.createToken: builds the payload with issuer, subject, audience,
expiry equal to now plus tokenExpiration, the requested scopes and a fresh
nonce, then signs it under the key manager's key id. The wall clock reading,
the random nonce, the key id and the signature bytes are oracle inputs. -/
def MCUHost.createToken (h : MCUHost) (userId audience : String)
    (scopes : List String) (now : Nat) (nonce keyId signatureBytes : String) : Jwt :=
  JWTFunctions.createToken
    { iss := h.issuer
      sub := userId
      aud := audience
      exp := now + h.tokenExpiration
      scope := scopes
      nonce := nonce }
    signatureBytes keyId

/-! ## Client engine data model (class MCPUI, src/client/index.ts) -/

/-- Basic user information (interface User); additional properties are opaque
to the protocol and omitted. -/
structure User where
  id : String
deriving DecidableEq

/-- Authentication information (interface Auth): a token plus the URL of the
verification-key publication endpoint. -/
structure Auth where
  token : Jwt
  jwks_url : String
deriving DecidableEq

/-- Opaque context record carried, never validated, by the protocol
(Record of string to unknown); modeled as a key/value list. -/
abbrev Context := List (String × String)

/-- Open key/value styling hints (interface ThemeSettings). -/
abbrev Theme := List (String × String)

/-- Inbound wire messages as seen by the client listener. The seven host
message constructors mirror the Host-to-UI tagged union; the other constructor
stands for any message whose type string is outside that family (a UI-family
or unknown type), which the listener never dispatches. -/
inductive Msg where
  | init (protocol_version : String) (user : Option User) (auth : Option Auth)
      (context : Option Context) (theme_settings : Option Theme)
  | update_context (context : Option Context)
  | theme (theme_settings : Theme)
  | auth_update (auth : Auth)
  | auth_revoke
  | permission_granted (scope : String) (granted : Bool) (auth : Option Auth)
  | permission_revoked (scope : String)
  | other (type : String)
deriving DecidableEq

/-- The type discriminator string of a message. -/
def Msg.type : Msg → String
  | .init _ _ _ _ _ => "init"
  | .update_context _ => "update_context"
  | .theme _ => "theme"
  | .auth_update _ => "auth_update"
  | .auth_revoke => "auth_revoke"
  | .permission_granted _ _ _ => "permission_granted"
  | .permission_revoked _ => "permission_revoked"
  | .other t => t

/-- Type guard isHostMessage (src/types/index.ts): membership of the type
string in the Host-to-UI family. -/
def isHostMessage (m : Msg) : Bool :=
  ["init", "update_context", "theme", "auth_update", "auth_revoke",
   "permission_granted", "permission_revoked"].contains m.type

/-- Outbound UI-to-Host messages built by the client engine. -/
inductive OutMsg where
  | ready
  | error (code : String) (message : String)
  | action (action_name : String) (payload : Option Context)
  | request_permission (scope : String) (reasoning : Option String)
  | resize (width : Option String) (height : Option String)
deriving DecidableEq

/-- Payload carried by a local event when it fires. -/
inductive EventData where
  | msgD (m : Msg)
  | ctxD (c : Option Context)
  | themeD (t : Option Theme)
  | authD (a : Option Auth)
  | nullD
  | permRespD (scope : String) (granted : Bool)
  | scopeD (s : String)
deriving DecidableEq

/-- A fired local event: its name and its payload. -/
abbrev Event := String × EventData

/-- Mutable state of the MCPUI class. The resize observer and its observed
element are DOM resources outside the protocol engine and are omitted. -/
structure ClientState where
  hostOrigin : Option String
  initialized : Bool
  auth : Option Auth
  user : Option User
  context : Option Context
  themeSettings : Option Theme
  protocolVersion : Option String
  validatedJwt : Bool
  grantedScopes : List String
deriving DecidableEq

/-- The client state as built by the MCPUI constructor. -/
def initialClientState : ClientState :=
  { hostOrigin := none
    initialized := false
    auth := none
    user := none
    context := none
    themeSettings := none
    protocolVersion := none
    validatedJwt := false
    grantedScopes := [] }

/-- Result of one synchronous step of the client engine: successor state, the
local events fired in order, the messages posted (with their target origin)
and the number of asynchronous token validations started. -/
structure StepResult where
  state : ClientState
  events : List Event
  sends : List (String × OutMsg)
  pendingValidations : Nat
deriving DecidableEq

/-- MCPUI.sendMessage: with no pinned host origin the message is dropped with
a warning; otherwise it is posted to the pinned origin. -/
def MCPUI.sendMessageTo (s : ClientState) (m : OutMsg) : List (String × OutMsg) :=
  match s.hostOrigin with
  | none => []
  | some o => [(o, m)]

/-- MCPUI.sendReady. -/
def MCPUI.sendReady (s : ClientState) : List (String × OutMsg) :=
  MCPUI.sendMessageTo s OutMsg.ready

/-- MCPUI.sendError. -/
def MCPUI.sendError (s : ClientState) (code message : String) : List (String × OutMsg) :=
  MCPUI.sendMessageTo s (OutMsg.error code message)

/-- MCPUI.sendAction: the method mutates no state; the state is returned
unchanged alongside the posts to make that frame explicit. -/
def MCPUI.sendAction (s : ClientState) (actionName : String)
    (payload : Option Context) : ClientState × List (String × OutMsg) :=
  (s, MCPUI.sendMessageTo s (OutMsg.action actionName payload))

/-- MCPUI.requestPermission. -/
def MCPUI.requestPermission (s : ClientState) (scope : String)
    (reasoning : Option String) : ClientState × List (String × OutMsg) :=
  (s, MCPUI.sendMessageTo s (OutMsg.request_permission scope reasoning))

/-- MCPUI.resize. -/
def MCPUI.resize (s : ClientState) (width height : Option String) :
    ClientState × List (String × OutMsg) :=
  (s, MCPUI.sendMessageTo s (OutMsg.resize width height))

/-- Synchronous prefix of MCPUI.validateAuthToken: the guard clause runs
before the first await; the rest (key-set fetch plus signature verification)
is asynchronous and is recorded as one pending validation in the step trace.
The TS guard also treats an empty token string as missing; tokens are carried
structurally here, so only the jwks url emptiness check is representable. -/
def MCPUI.validateAuthTokenSync (s : ClientState) : ClientState × Nat :=
  match s.auth with
  | none => ({ s with validatedJwt := false }, 0)
  | some a => if a.jwks_url = "" then ({ s with validatedJwt := false }, 0) else (s, 1)

/-- MCPUI.handleInit: pin the sender origin and record the protocol version
first; on an incompatible version send a protocol error and stop; otherwise
store user, auth, context and theme, start token validation when a credential
is present, enter the initialized state, fire the initialized event and send
ready. -/
def MCPUI.handleInit (s : ClientState) (origin : String) (v : String)
    (u : Option User) (a : Option Auth) (c : Option Context) (t : Option Theme) :
    StepResult :=
  let s1 := { s with hostOrigin := some origin, protocolVersion := some v }
  if ¬ MCPUI.isCompatibleVersion v then
    { state := s1
      events := []
      sends := MCPUI.sendError s1 "protocol_error"
        ("Incompatible protocol version: " ++ v ++ ". This UI requires version "
          ++ PROTOCOL_VERSION)
      pendingValidations := 0 }
  else
    let s2 := { s1 with user := u, auth := a, context := c, themeSettings := t }
    let vr := if a.isSome then MCPUI.validateAuthTokenSync s2 else (s2, 0)
    let s4 := { vr.1 with initialized := true }
    { state := s4
      events := [("initialized", EventData.msgD (Msg.init v u a c t))]
      sends := MCPUI.sendReady s4
      pendingValidations := vr.2 }

/-- MCPUI.handleUpdateContext. -/
def MCPUI.handleUpdateContext (s : ClientState) (c : Option Context) : StepResult :=
  let s1 := { s with context := c }
  { state := s1
    events := [("contextUpdated", EventData.ctxD s1.context)]
    sends := []
    pendingValidations := 0 }

/-- MCPUI.handleTheme. -/
def MCPUI.handleTheme (s : ClientState) (t : Theme) : StepResult :=
  let s1 := { s with themeSettings := some t }
  { state := s1
    events := [("themeUpdated", EventData.themeD s1.themeSettings)]
    sends := []
    pendingValidations := 0 }

/-- MCPUI.handleAuthUpdate: replace the credential, start revalidation, fire
authUpdated. -/
def MCPUI.handleAuthUpdate (s : ClientState) (a : Auth) : StepResult :=
  let s1 := { s with auth := some a }
  let vr := MCPUI.validateAuthTokenSync s1
  { state := vr.1
    events := [("authUpdated", EventData.authD vr.1.auth)]
    sends := []
    pendingValidations := vr.2 }

/-- MCPUI.handleAuthRevoke: clear the credential, the authenticated flag and
the granted scopes, fire authRevoked. -/
def MCPUI.handleAuthRevoke (s : ClientState) : StepResult :=
  let s1 := { s with auth := none, validatedJwt := false, grantedScopes := [] }
  { state := s1
    events := [("authRevoked", EventData.nullD)]
    sends := []
    pendingValidations := 0 }

/-- MCPUI.handlePermissionGranted: on granted, add the scope and, when a fresh
credential accompanies the grant, replace auth and start revalidation; fire
permissionResponse with scope and outcome either way. -/
def MCPUI.handlePermissionGranted (s : ClientState) (scope : String)
    (granted : Bool) (a : Option Auth) : StepResult :=
  let vr :=
    if granted then
      let sA := { s with grantedScopes := setAdd s.grantedScopes scope }
      match a with
      | some au => MCPUI.validateAuthTokenSync { sA with auth := some au }
      | none => (sA, 0)
    else (s, 0)
  { state := vr.1
    events := [("permissionResponse", EventData.permRespD scope granted)]
    sends := []
    pendingValidations := vr.2 }

/-- MCPUI.handlePermissionRevoked. -/
def MCPUI.handlePermissionRevoked (s : ClientState) (scope : String) : StepResult :=
  let s1 := { s with grantedScopes := s.grantedScopes.erase scope }
  { state := s1
    events := [("permissionRevoked", EventData.scopeD scope)]
    sends := []
    pendingValidations := 0 }

/-- MCPUI.handleHostMessage: dispatch on the message type, then fire the raw
message-type event carrying the whole message. -/
def MCPUI.handleHostMessage (s : ClientState) (origin : String) (m : Msg) : StepResult :=
  let r :=
    match m with
    | Msg.init v u a c t => MCPUI.handleInit s origin v u a c t
    | Msg.update_context c => MCPUI.handleUpdateContext s c
    | Msg.theme t => MCPUI.handleTheme s t
    | Msg.auth_update a => MCPUI.handleAuthUpdate s a
    | Msg.auth_revoke => MCPUI.handleAuthRevoke s
    | Msg.permission_granted sc g a => MCPUI.handlePermissionGranted s sc g a
    | Msg.permission_revoked sc => MCPUI.handlePermissionRevoked s sc
    | Msg.other _ => { state := s, events := [], sends := [], pendingValidations := 0 }
  { r with events := r.events ++ [(m.type, EventData.msgD m)] }

/-- The window message listener set up by the MCPUI constructor
(setupMessageListener): a non-init message is dropped, with no event and no
state change, when a host origin is pinned and differs from the observed
sender origin; otherwise host-family messages are dispatched and anything
else is ignored. -/
def MCPUI.receiveMessage (s : ClientState) (origin : String) (m : Msg) : StepResult :=
  if m.type ≠ "init" ∧ s.hostOrigin.isSome ∧ s.hostOrigin ≠ some origin then
    { state := s, events := [], sends := [], pendingValidations := 0 }
  else if isHostMessage m then
    MCPUI.handleHostMessage s origin m
  else
    { state := s, events := [], sends := [], pendingValidations := 0 }

/-! ## Host engine data model (class EmbeddedUI, src/host/index.ts) -/

/-- Declared permission sets of a UI registration. -/
structure UIPermissions where
  required_scopes : List String
  optional_scopes : List String
deriving DecidableEq

/-- Protocol version range declared by a UI registration. -/
structure ProtocolSupport where
  min_version : String
  target_version : String
deriving DecidableEq

/-- UI registration payload (interface UIRegistrationPayload). -/
structure UIRegistrationPayload where
  ui_name : String
  ui_url_template : String
  description : String
  capabilities : List String
  tool_association : Option String
  data_type_handled : Option String
  permissions : UIPermissions
  protocol_support : ProtocolSupport
deriving DecidableEq

/-- Mutable state of one EmbeddedUI session. The iframe element itself is a
DOM resource; the two facts about it the engine reads when sending are kept:
the origin of its src URL and whether its content window is available. The
pluggable handlers are modeled as oracle inputs to the step functions. -/
structure EmbeddedUI where
  registration : UIRegistrationPayload
  ready : Bool
  grantedScopes : List String
  auth : Option Auth
  user : Option User
  context : Option Context
  themeSettings : Option Theme
  iframeSrcOrigin : String
  contentWindowAvailable : Bool
deriving DecidableEq

/-- EmbeddedUI.sendMessage: a warning and no transmission when the iframe
content window is unavailable; otherwise the message is posted to the origin
of the iframe src URL. -/
def EmbeddedUI.sendMessage (ui : EmbeddedUI) (m : Msg) : List (String × Msg) :=
  if ui.contentWindowAvailable then [(ui.iframeSrcOrigin, m)] else []

/-- EmbeddedUI.sendPermissionGranted: a grant with a stored credential
re-attaches that credential; a denial never attaches one. -/
def EmbeddedUI.sendPermissionGranted (ui : EmbeddedUI) (scope : String)
    (granted : Bool) : List (String × Msg) :=
  let updatedAuth : Option Auth := if granted ∧ ui.auth.isSome then ui.auth else none
  ui.sendMessage (Msg.permission_granted scope granted updatedAuth)

/-- Result of one run of the host permission negotiation: successor session
state, posts to the UI, and whether the installed permission-request handler
was invoked. -/
structure HostStepResult where
  ui : EmbeddedUI
  sends : List (String × Msg)
  handlerInvoked : Bool
deriving DecidableEq

/-- EmbeddedUI.handleRequestPermission. The installed handler is an oracle:
none models no installed handler (the window.confirm fallback, whose answer
is the confirmResult oracle); some (Except.ok b) models a handler resolving b;
some (Except.error ()) models a handler that throws or rejects, which the
catch block turns into a denial. A scope outside the registration's
optional_scopes is denied before any handler runs; an already granted scope
is re-affirmed without re-prompting; otherwise the decision is taken, the
scope added on approval, and the outcome sent either way. -/
def EmbeddedUI.handleRequestPermission (ui : EmbeddedUI)
    (handlerDecision : Option (Except Unit Bool)) (confirmResult : Bool)
    (scope : String) (reasoning : Option String) : HostStepResult :=
  let _ := reasoning
  let isOptionalScope := scope ∈ ui.registration.permissions.optional_scopes
  if ¬ isOptionalScope then
    { ui := ui, sends := ui.sendPermissionGranted scope false, handlerInvoked := false }
  else if scope ∈ ui.grantedScopes then
    { ui := ui, sends := ui.sendPermissionGranted scope true, handlerInvoked := false }
  else
    let granted :=
      match handlerDecision with
      | some (Except.ok b) => b
      | some (Except.error _) => false
      | none => confirmResult
    let ui2 :=
      if granted then { ui with grantedScopes := setAdd ui.grantedScopes scope } else ui
    { ui := ui2
      sends := ui2.sendPermissionGranted scope granted
      handlerInvoked := handlerDecision.isSome }

/-! ## Local event-handler registry

Both engines contain a textually identical trio of methods on the private
eventHandlers map (on, off, triggerEvent): a JS Map from event name to a JS
Set of handler functions. Handlers are identified by reference; the registry
is embedded once, over an abstract handler identity, and is shared by the
client and host models. A JS Map holds at most one entry per key and a JS Set
holds each member once, in insertion order. -/

/-- Handler identity (JS function reference equality). -/
abbrev Handler := Nat

/-- The eventHandlers map: entries in insertion order, one per event name. -/
abbrev EventHandlers := List (String × List Handler)

/-- The on method: ensure an entry for the event exists (a missing key is
created empty at the end of the map) and add the handler to its set. -/
def ehOn (m : EventHandlers) (e : String) (h : Handler) : EventHandlers :=
  match m with
  | [] => [(e, [h])]
  | p :: rest => if p.1 == e then (p.1, setAdd p.2 h) :: rest else p :: ehOn rest e h

/-- The off method: delete the handler from the event's set if the entry
exists; a missing entry is a no-op. -/
def ehOff (m : EventHandlers) (e : String) (h : Handler) : EventHandlers :=
  match m with
  | [] => []
  | p :: rest => if p.1 == e then (p.1, p.2.erase h) :: rest else p :: ehOff rest e h

/-- The triggerEvent method: the handlers invoked for the event, in order
(each invocation runs in its own failure boundary; a throwing handler is
logged and the rest still run, so the invocation list is the whole set). -/
def ehTrigger (m : EventHandlers) (e : String) : List Handler :=
  match m with
  | [] => []
  | p :: rest => if p.1 == e then p.2 else ehTrigger rest e

/-! ## Concrete fixtures used by witnesses and counterexamples -/

/-- A token whose payload declares its expiry exactly at the current time used
below (1000). -/
def tokenExpAtNow : Jwt :=
  { header := { alg := "RS256", typ := "JWT", kid := "k1" }
    payload := { iss := "issuer", sub := "alice", aud := "ui", exp := 1000,
                 scope := ["read:a"], nonce := "n0" }
    signature := "sigbytes" }

/-- A validation environment whose fetched key set contains the matching key
and whose signature oracle accepts everything: the signature would verify. -/
def jwkK1 : JWK :=
  { kty := "RSA", kid := "k1", use := "sig", alg := "RS256", n := "modulus", e := "AQAB" }

def envAllValid : ValidationEnv :=
  { fetchedJWKS := some { keys := [jwkK1] }
    verifySignatureOracle := fun _ _ => true }

/-- A concrete embedded-UI session used by witnesses: one optional scope
declared, nothing granted yet, channel available. -/
def sessionUI : EmbeddedUI :=
  { registration :=
      { ui_name := "Demo UI"
        ui_url_template := "https://ui.example/widget?id=123"
        description := "demo"
        capabilities := ["render"]
        tool_association := none
        data_type_handled := none
        permissions := { required_scopes := ["read:a"], optional_scopes := ["write:b"] }
        protocol_support := { min_version := "1.0.0", target_version := "1.0.0" } }
    ready := true
    grantedScopes := ["read:a"]
    auth := none
    user := none
    context := none
    themeSettings := none
    iframeSrcOrigin := "https://ui.example"
    contentWindowAvailable := true }

/-- A client state pinned to a host origin with one granted scope. -/
def pinnedClientState : ClientState :=
  { initialClientState with hostOrigin := some "https://host.example", grantedScopes := ["read:a"] }

/-! ## Helper lemmas on version parsing -/

lemma isDigit_ne_dot (c : Char) (h : c.isDigit = true) : ¬ (c = '.') := by
  intro hc
  subst hc
  exact absurd h (by decide)

lemma takeWhile_ne_dot_append (l r : List Char) (h : ∀ c ∈ l, c.isDigit = true) :
    (l ++ '.' :: r).takeWhile (fun c => c != '.') = l := by
  induction l with
  | nil => simp [List.takeWhile_cons]
  | cons a t ih =>
      have ha : (a != '.') = true := by
        simpa [bne_iff_ne] using isDigit_ne_dot a (h a (by simp))
      simp only [List.cons_append, List.takeWhile_cons, ha, if_true]
      rw [ih (fun c hc => h c (by simp [hc]))]

lemma takeWhile_isDigit_self (l : List Char) (h : ∀ c ∈ l, c.isDigit = true) :
    l.takeWhile Char.isDigit = l := by
  induction l with
  | nil => rfl
  | cons a t ih =>
      have ha := h a (by simp)
      simp [List.takeWhile_cons, ha, ih (fun c hc => h c (by simp [hc]))]

lemma versionMajorSeg_data (v : String) (l r : List Char)
    (hv : v.data = l ++ '.' :: r) (hdig : ∀ c ∈ l, c.isDigit = true) :
    versionMajorSeg v = l := by
  unfold versionMajorSeg
  rw [hv, takeWhile_ne_dot_append _ _ hdig]

lemma jsParseInt_digits (l : List Char) (hne : l ≠ [])
    (hdig : ∀ c ∈ l, c.isDigit = true) :
    jsParseInt l = some (digitsVal l) := by
  unfold jsParseInt
  rw [takeWhile_isDigit_self l hdig]
  simp [hne]

lemma compatibleVersions_data (v w : String) (lv rv lw rw1 : List Char)
    (hv : v.data = lv ++ '.' :: rv) (hw : w.data = lw ++ '.' :: rw1)
    (hv1 : lv ≠ []) (hv2 : ∀ c ∈ lv, c.isDigit = true)
    (hw1 : lw ≠ []) (hw2 : ∀ c ∈ lw, c.isDigit = true) :
    compatibleVersions v w = (digitsVal lv == digitsVal lw) := by
  unfold compatibleVersions
  rw [versionMajorSeg_data v lv rv hv hv2, versionMajorSeg_data w lw rw1 hw hw2,
      jsParseInt_digits _ hv1 hv2, jsParseInt_digits _ hw1 hw2]

lemma protocolVersion_data : PROTOCOL_VERSION.data = ['1'] ++ '.' :: ['0', '.', '0'] := by
  decide

lemma isCompatibleVersion_data (v : String) (lv rv : List Char)
    (hv : v.data = lv ++ '.' :: rv)
    (hv1 : lv ≠ []) (hv2 : ∀ c ∈ lv, c.isDigit = true) :
    MCPUI.isCompatibleVersion v = (digitsVal lv == 1) := by
  unfold MCPUI.isCompatibleVersion
  rw [compatibleVersions_data v PROTOCOL_VERSION lv rv ['1'] ['0', '.', '0']
    hv protocolVersion_data hv1 hv2 (by decide) (by decide)]
  rfl

lemma versionString_data (a b c : String) :
    (a ++ "." ++ b ++ "." ++ c).data = a.data ++ '.' :: (b.data ++ '.' :: c.data) := by
  simp [String.data_append]

/-- Claim C3: for protocol version strings of the form MAJOR.MINOR.PATCH, the
client's version-compatibility check accepts a host version against its own
version iff the MAJOR components are numerically equal, MINOR and PATCH being
ignored; the relation is reflexive, compatible("1.2.3","1.9.0") holds and
compatible("1.0.0","2.0.0") does not. -/
theorem C3_version_compatibility (a1 b1 c1 a2 b2 c2 : String)
    (h1 : a1.data ≠ [] ∧ ∀ c ∈ a1.data, c.isDigit = true)
    (h2 : a2.data ≠ [] ∧ ∀ c ∈ a2.data, c.isDigit = true) :
    (compatibleVersions (a1 ++ "." ++ b1 ++ "." ++ c1) (a2 ++ "." ++ b2 ++ "." ++ c2) = true
      ↔ digitsVal a1.data = digitsVal a2.data) ∧
    (MCPUI.isCompatibleVersion (a1 ++ "." ++ b1 ++ "." ++ c1) = true
      ↔ digitsVal a1.data = 1) ∧
    compatibleVersions (a1 ++ "." ++ b1 ++ "." ++ c1) (a1 ++ "." ++ b1 ++ "." ++ c1) = true ∧
    compatibleVersions "1.2.3" "1.9.0" = true ∧
    compatibleVersions "1.0.0" "2.0.0" = false := by
  obtain ⟨h1a, h1b⟩ := h1
  obtain ⟨h2a, h2b⟩ := h2
  refine ⟨?_, ?_, ?_, by decide, by decide⟩
  · rw [compatibleVersions_data _ _ _ _ _ _ (versionString_data a1 b1 c1)
      (versionString_data a2 b2 c2) h1a h1b h2a h2b]
    exact beq_iff_eq
  · rw [isCompatibleVersion_data _ _ _ (versionString_data a1 b1 c1) h1a h1b]
    exact beq_iff_eq
  · rw [compatibleVersions_data _ _ _ _ _ _ (versionString_data a1 b1 c1)
      (versionString_data a1 b1 c1) h1a h1b h1a h1b]
    exact beq_self_eq_true _

theorem C3_version_compatibility_witness :
    (("1" : String).data ≠ [] ∧ ∀ c ∈ ("1" : String).data, c.isDigit = true) ∧
    (compatibleVersions ("1" ++ "." ++ "2" ++ "." ++ "3") ("1" ++ "." ++ "9" ++ "." ++ "0") = true
      ↔ digitsVal ("1" : String).data = digitsVal ("1" : String).data) :=
  ⟨⟨by decide, by decide⟩,
    (C3_version_compatibility "1" "2" "3" "1" "9" "0" ⟨by decide, by decide⟩
      ⟨by decide, by decide⟩).1⟩

/-! ## Token validation and issuance claims -/

/-- Claim C4, counterexample: the claim says a credential whose exp is at or
before the current UNIX time fails validation; the code only rejects exp
strictly below now (payload.exp < now), so a token with exp equal to now and
a verifying signature validates successfully. -/
theorem C4_counterexample_exp_at_now :
    tokenExpAtNow.payload.exp ≤ 1000 ∧
    JWTUtils.validate envAllValid tokenExpAtNow 1000 = true := by
  constructor
  · decide
  · rfl

/-- Claim C4, amended: a credential whose decoded payload declares a nonzero
expiry strictly before the current UNIX time fails validation regardless of
the fetched key set and of whether the signature would verify (exp equal to
now passes the expiry check, and a zero exp is skipped by JS truthiness). -/
theorem C4_expired_token_fails (env : ValidationEnv) (t : Jwt) (now : Nat)
    (h0 : t.payload.exp ≠ 0) (hlt : t.payload.exp < now) :
    JWTUtils.validate env t now = false := by
  unfold JWTUtils.validate JWTUtils.decode
  rw [if_pos ⟨h0, hlt⟩]

theorem C4_expired_token_fails_witness :
    tokenExpAtNow.payload.exp ≠ 0 ∧ tokenExpAtNow.payload.exp < 2000 ∧
    JWTUtils.validate envAllValid tokenExpAtNow 2000 = false :=
  ⟨by decide, by decide, C4_expired_token_fails envAllValid tokenExpAtNow 2000
    (by decide) (by decide)⟩

/-- Claim C6: decoding (without verification) the token produced by the host's
token issuance yields a payload whose scope equals the requested scope list
and whose exp equals the issuance time plus the expiry duration, hence
strictly greater than the issuance time when the duration is positive. -/
theorem C6_issue_decode_roundtrip (h : MCUHost) (userId audience : String)
    (scopes : List String) (now : Nat) (nonce keyId sigBytes : String)
    (hpos : 0 < h.tokenExpiration) :
    (JWTUtils.decode (h.createToken userId audience scopes now nonce keyId sigBytes)).2.scope
      = scopes ∧
    (JWTUtils.decode (h.createToken userId audience scopes now nonce keyId sigBytes)).2.exp
      = now + h.tokenExpiration ∧
    now < (JWTUtils.decode (h.createToken userId audience scopes now nonce keyId sigBytes)).2.exp := by
  refine ⟨rfl, rfl, ?_⟩
  show now < now + h.tokenExpiration
  exact Nat.lt_add_of_pos_right hpos

theorem C6_issue_decode_roundtrip_witness :
    0 < (MCUHost.create "https://h.example/jwks.json" "https://h.example" none).tokenExpiration ∧
    (JWTUtils.decode ((MCUHost.create "https://h.example/jwks.json" "https://h.example" none).createToken
        "alice" "ui-aud" ["sA", "sB"] 1700000000 "n0" "k1" "sigbytes")).2.scope = ["sA", "sB"] ∧
    (JWTUtils.decode ((MCUHost.create "https://h.example/jwks.json" "https://h.example" none).createToken
        "alice" "ui-aud" ["sA", "sB"] 1700000000 "n0" "k1" "sigbytes")).2.exp = 1700000000 + 3600 ∧
    1700000000 < (JWTUtils.decode ((MCUHost.create "https://h.example/jwks.json" "https://h.example" none).createToken
        "alice" "ui-aud" ["sA", "sB"] 1700000000 "n0" "k1" "sigbytes")).2.exp := by
  refine ⟨by decide, ?_⟩
  have := C6_issue_decode_roundtrip
    (MCUHost.create "https://h.example/jwks.json" "https://h.example" none)
    "alice" "ui-aud" ["sA", "sB"] 1700000000 "n0" "k1" "sigbytes" (by decide)
  simpa using this

/-! ## Client engine claims -/

/-- Claim C1: with a pinned host origin, delivery of an inbound message whose
type is not init from a different observed sender origin leaves the engine
state unchanged and fires no local event, not even the raw message-type
event (and nothing is sent and no validation starts); an inbound init message
is processed exactly as an unfiltered message, regardless of its sender
origin. -/
theorem C1_origin_pinning (s : ClientState) (o origin : String) (m : Msg)
    (hpin : s.hostOrigin = some o) (hne : origin ≠ o) :
    (m.type ≠ "init" →
      MCPUI.receiveMessage s origin m =
        { state := s, events := [], sends := [], pendingValidations := 0 }) ∧
    (m.type = "init" →
      MCPUI.receiveMessage s origin m = MCPUI.handleHostMessage s origin m) := by
  constructor
  · intro ht
    have hc : m.type ≠ "init" ∧ s.hostOrigin.isSome ∧ s.hostOrigin ≠ some origin := by
      refine ⟨ht, by simp [hpin], ?_⟩
      rw [hpin]
      intro hco
      exact hne (by injection hco with h2; exact h2.symm)
    unfold MCPUI.receiveMessage
    rw [if_pos hc]
  · intro ht
    have hc : ¬ (m.type ≠ "init" ∧ s.hostOrigin.isSome ∧ s.hostOrigin ≠ some origin) := by
      intro hcontra
      exact hcontra.1 ht
    have hh : isHostMessage m = true := by
      simp [isHostMessage, ht]
    unfold MCPUI.receiveMessage
    rw [if_neg hc, if_pos hh]

theorem C1_origin_pinning_witness :
    ({ initialClientState with hostOrigin := some "https://host.example" } : ClientState).hostOrigin
      = some "https://host.example" ∧
    ("https://evil.example" : String) ≠ "https://host.example" ∧
    ((Msg.update_context none).type ≠ "init" →
      MCPUI.receiveMessage { initialClientState with hostOrigin := some "https://host.example" }
          "https://evil.example" (Msg.update_context none) =
        { state := { initialClientState with hostOrigin := some "https://host.example" }
          events := [], sends := [], pendingValidations := 0 }) :=
  ⟨rfl, by decide,
    (C1_origin_pinning { initialClientState with hostOrigin := some "https://host.example" }
      "https://host.example" "https://evil.example" (Msg.update_context none)
      rfl (by decide)).1⟩

/-- Claim C5: when an init message carries a protocol version whose MAJOR
component differs numerically from the client's own (the MAJOR of
PROTOCOL_VERSION, which is 1), the client pins the sender origin, sends an
error message with code protocol_error to that origin, and does not enter the
initialized state: the initialized flag stays false, no initialized event
fires (only the raw init event does), no ready message is sent, and no token
validation starts. -/
theorem C5_incompatible_init_halts (s : ClientState) (origin : String)
    (a b c : String) (u : Option User) (au : Option Auth)
    (ctx : Option Context) (th : Option Theme)
    (ha1 : a.data ≠ []) (ha2 : ∀ ch ∈ a.data, ch.isDigit = true)
    (hmaj : digitsVal a.data ≠ 1) (hinit : s.initialized = false) :
    (MCPUI.receiveMessage s origin
        (Msg.init (a ++ "." ++ b ++ "." ++ c) u au ctx th)).state.initialized = false ∧
    (MCPUI.receiveMessage s origin
        (Msg.init (a ++ "." ++ b ++ "." ++ c) u au ctx th)).sends
      = [(origin, OutMsg.error "protocol_error"
          ("Incompatible protocol version: " ++ (a ++ "." ++ b ++ "." ++ c)
            ++ ". This UI requires version " ++ PROTOCOL_VERSION))] ∧
    (MCPUI.receiveMessage s origin
        (Msg.init (a ++ "." ++ b ++ "." ++ c) u au ctx th)).events
      = [("init", EventData.msgD (Msg.init (a ++ "." ++ b ++ "." ++ c) u au ctx th))] ∧
    (MCPUI.receiveMessage s origin
        (Msg.init (a ++ "." ++ b ++ "." ++ c) u au ctx th)).state.hostOrigin = some origin ∧
    (MCPUI.receiveMessage s origin
        (Msg.init (a ++ "." ++ b ++ "." ++ c) u au ctx th)).pendingValidations = 0 := by
  have hcompat : MCPUI.isCompatibleVersion (a ++ "." ++ b ++ "." ++ c) = false := by
    rw [isCompatibleVersion_data _ _ _ (versionString_data a b c) ha1 ha2]
    exact beq_eq_false_iff_ne.mpr hmaj
  have hstep : MCPUI.receiveMessage s origin
      (Msg.init (a ++ "." ++ b ++ "." ++ c) u au ctx th) =
      { state := { s with hostOrigin := some origin, protocolVersion := some (a ++ "." ++ b ++ "." ++ c) }
        events := [("init", EventData.msgD (Msg.init (a ++ "." ++ b ++ "." ++ c) u au ctx th))]
        sends := [(origin, OutMsg.error "protocol_error"
          ("Incompatible protocol version: " ++ (a ++ "." ++ b ++ "." ++ c)
            ++ ". This UI requires version " ++ PROTOCOL_VERSION))]
        pendingValidations := 0 } := by
    unfold MCPUI.receiveMessage
    rw [if_neg (by intro hcon; exact hcon.1 rfl)]
    rw [if_pos (show isHostMessage (Msg.init (a ++ "." ++ b ++ "." ++ c) u au ctx th) = true
      from rfl)]
    simp [MCPUI.handleHostMessage, MCPUI.handleInit, hcompat,
      MCPUI.sendError, MCPUI.sendMessageTo, Msg.type]
  rw [hstep]
  exact ⟨hinit, rfl, rfl, rfl, rfl⟩

theorem C5_incompatible_init_halts_witness :
    ("2" : String).data ≠ [] ∧ (∀ ch ∈ ("2" : String).data, ch.isDigit = true) ∧
    digitsVal ("2" : String).data ≠ 1 ∧ initialClientState.initialized = false ∧
    ((MCPUI.receiveMessage initialClientState "https://host.example"
        (Msg.init ("2" ++ "." ++ "0" ++ "." ++ "0") none none none none)).state.initialized = false ∧
     (MCPUI.receiveMessage initialClientState "https://host.example"
        (Msg.init ("2" ++ "." ++ "0" ++ "." ++ "0") none none none none)).sends
       = [("https://host.example", OutMsg.error "protocol_error"
           ("Incompatible protocol version: " ++ ("2" ++ "." ++ "0" ++ "." ++ "0")
             ++ ". This UI requires version " ++ PROTOCOL_VERSION))] ∧
     (MCPUI.receiveMessage initialClientState "https://host.example"
        (Msg.init ("2" ++ "." ++ "0" ++ "." ++ "0") none none none none)).events
       = [("init", EventData.msgD (Msg.init ("2" ++ "." ++ "0" ++ "." ++ "0") none none none none))] ∧
     (MCPUI.receiveMessage initialClientState "https://host.example"
        (Msg.init ("2" ++ "." ++ "0" ++ "." ++ "0") none none none none)).state.hostOrigin
       = some "https://host.example" ∧
     (MCPUI.receiveMessage initialClientState "https://host.example"
        (Msg.init ("2" ++ "." ++ "0" ++ "." ++ "0") none none none none)).pendingValidations = 0) :=
  ⟨by decide, by decide, by decide, rfl,
    C5_incompatible_init_halts initialClientState "https://host.example" "2" "0" "0"
      none none none none (by decide) (by decide) (by decide) rfl⟩

/-- Claim C8: a delivered permission_granted message with granted false leaves
the whole client state unchanged, in particular the granted-scope set, the
stored credential and the authenticated flag; its only effects are the
permissionResponse event with the scope and the false outcome followed by the
raw permission_granted event, with nothing sent and no validation started. -/
theorem C8_denial_leaves_state (s : ClientState) (origin scope : String) (a : Option Auth)
    (hok : s.hostOrigin = none ∨ s.hostOrigin = some origin) :
    MCPUI.receiveMessage s origin (Msg.permission_granted scope false a) =
      { state := s
        events := [("permissionResponse", EventData.permRespD scope false),
          ("permission_granted", EventData.msgD (Msg.permission_granted scope false a))]
        sends := []
        pendingValidations := 0 } := by
  have hc : ¬ ((Msg.permission_granted scope false a).type ≠ "init" ∧
      s.hostOrigin.isSome ∧ s.hostOrigin ≠ some origin) := by
    rintro ⟨h1, h2, h3⟩
    rcases hok with h | h
    · rw [h] at h2
      simp at h2
    · exact h3 h
  unfold MCPUI.receiveMessage
  rw [if_neg hc]
  rw [if_pos (show isHostMessage (Msg.permission_granted scope false a) = true from rfl)]
  unfold MCPUI.handleHostMessage MCPUI.handlePermissionGranted
  simp [Msg.type]

theorem C8_denial_leaves_state_witness :
    ((pinnedClientState).hostOrigin = none ∨
     (pinnedClientState).hostOrigin = some "https://host.example") ∧
    MCPUI.receiveMessage pinnedClientState
        "https://host.example" (Msg.permission_granted "write:b" false none) =
      { state := pinnedClientState
        events := [("permissionResponse", EventData.permRespD "write:b" false),
          ("permission_granted", EventData.msgD (Msg.permission_granted "write:b" false none))]
        sends := []
        pendingValidations := 0 } :=
  ⟨Or.inr rfl,
    C8_denial_leaves_state pinnedClientState
      "https://host.example" "write:b" none (Or.inr rfl)⟩

/-! ## Host engine claims -/

/-- Claim C2: a request_permission for a scope absent from the registration's
optional_scopes is denied immediately: permission_granted with granted false
is sent (with no credential attached), the installed permission-request
handler is not invoked whatever it would decide, and the session state, in
particular its granted-scope set, is unchanged. -/
theorem C2_scope_escalation_denied (ui : EmbeddedUI)
    (hdlr : Option (Except Unit Bool)) (confirm : Bool)
    (scope : String) (reasoning : Option String)
    (hnot : scope ∉ ui.registration.permissions.optional_scopes)
    (hcw : ui.contentWindowAvailable = true) :
    EmbeddedUI.handleRequestPermission ui hdlr confirm scope reasoning =
      { ui := ui
        sends := [(ui.iframeSrcOrigin, Msg.permission_granted scope false none)]
        handlerInvoked := false } := by
  unfold EmbeddedUI.handleRequestPermission
  rw [if_pos (by simpa using hnot)]
  simp [EmbeddedUI.sendPermissionGranted, EmbeddedUI.sendMessage, hcw]

theorem C2_scope_escalation_denied_witness :
    ("admin:all" : String) ∉ sessionUI.registration.permissions.optional_scopes ∧
    sessionUI.contentWindowAvailable = true ∧
    EmbeddedUI.handleRequestPermission sessionUI (some (Except.ok true)) true
        "admin:all" (some "please") =
      { ui := sessionUI
        sends := [(sessionUI.iframeSrcOrigin, Msg.permission_granted "admin:all" false none)]
        handlerInvoked := false } :=
  ⟨by decide, rfl,
    C2_scope_escalation_denied sessionUI (some (Except.ok true)) true "admin:all"
      (some "please") (by decide) rfl⟩

/-- Claim C9: when the installed permission-request handler throws or rejects
on a request for a scope that is declared optional and not already granted,
the host treats the decision as a denial: permission_granted with granted
false is still sent, the scope is not added to the session's granted set; and
whatever the handler oracle does, exactly one permission_granted reply goes
out for every request_permission. -/
theorem C9_handler_throw_denies (ui : EmbeddedUI) (confirm : Bool)
    (scope : String) (reasoning : Option String)
    (hopt : scope ∈ ui.registration.permissions.optional_scopes)
    (hnotg : scope ∉ ui.grantedScopes)
    (hcw : ui.contentWindowAvailable = true) :
    (EmbeddedUI.handleRequestPermission ui (some (Except.error ())) confirm scope reasoning =
      { ui := ui
        sends := [(ui.iframeSrcOrigin, Msg.permission_granted scope false none)]
        handlerInvoked := true }) ∧
    (∀ (hdlr : Option (Except Unit Bool)) (confirm2 : Bool),
      (EmbeddedUI.handleRequestPermission ui hdlr confirm2 scope reasoning).sends.length = 1) := by
  constructor
  · unfold EmbeddedUI.handleRequestPermission
    rw [if_neg (by simpa using hopt)]
    rw [if_neg (by simpa using hnotg)]
    simp [EmbeddedUI.sendPermissionGranted, EmbeddedUI.sendMessage, hcw]
  · intro hdlr confirm2
    unfold EmbeddedUI.handleRequestPermission
    rw [if_neg (by simpa using hopt)]
    rw [if_neg (by simpa using hnotg)]
    rcases hdlr with _ | d
    · by_cases hgr : confirm2 = true <;>
        simp [hgr, EmbeddedUI.sendPermissionGranted, EmbeddedUI.sendMessage, hcw, setAdd]
    · rcases d with db | du
      · simp [EmbeddedUI.sendPermissionGranted, EmbeddedUI.sendMessage, hcw, setAdd]
      · by_cases hgr : du = true <;>
          simp [hgr, EmbeddedUI.sendPermissionGranted, EmbeddedUI.sendMessage, hcw, setAdd]

theorem C9_handler_throw_denies_witness :
    ("write:b" : String) ∈ sessionUI.registration.permissions.optional_scopes ∧
    ("write:b" : String) ∉ sessionUI.grantedScopes ∧
    sessionUI.contentWindowAvailable = true ∧
    EmbeddedUI.handleRequestPermission sessionUI (some (Except.error ())) true
        "write:b" (some "to save settings") =
      { ui := sessionUI
        sends := [(sessionUI.iframeSrcOrigin, Msg.permission_granted "write:b" false none)]
        handlerInvoked := true } :=
  ⟨by decide, by decide, rfl,
    (C9_handler_throw_denies sessionUI true "write:b" (some "to save settings")
      (by decide) (by decide) rfl).1⟩

/-! ## Client send gating (claim C7) -/

/-- Claim C7, counterexample: the claim gates sends on the host origin having
been established by a successful init, but handleInit pins the sender origin
before the version check, so after an init rejected for version
incompatibility (the client is not initialized and answered with a protocol
error) sendAction already transmits to the pinned origin instead of being a
no-op. -/
theorem C7_counterexample_failed_init_unlocks_sends :
    (MCPUI.receiveMessage initialClientState "https://host.example"
        (Msg.init "2.0.0" none none none none)).state.initialized = false ∧
    (MCPUI.sendAction
        (MCPUI.receiveMessage initialClientState "https://host.example"
          (Msg.init "2.0.0" none none none none)).state "go" none).2
      = [("https://host.example", OutMsg.action "go" none)] := by
  constructor
  · rfl
  · rfl

/-- Claim C7, amended: every outbound send from the client (sendAction,
requestPermission, resize, and the internal ready and error sends) transmits
nothing and changes no state, logging only a warning, while the host origin
is unset; once the host origin has been pinned by receipt of any init message
(handleInit pins it even when the init is rejected as version-incompatible),
the message is posted to that origin. -/
theorem C7_sends_gated_by_host_origin (s : ClientState) (n : String)
    (p : Option Context) (sc : String) (r : Option String)
    (w hgt : Option String) (code msgText : String) :
    (s.hostOrigin = none →
      MCPUI.sendAction s n p = (s, []) ∧
      MCPUI.requestPermission s sc r = (s, []) ∧
      MCPUI.resize s w hgt = (s, []) ∧
      MCPUI.sendReady s = [] ∧
      MCPUI.sendError s code msgText = []) ∧
    (∀ o, s.hostOrigin = some o →
      MCPUI.sendAction s n p = (s, [(o, OutMsg.action n p)]) ∧
      MCPUI.requestPermission s sc r = (s, [(o, OutMsg.request_permission sc r)]) ∧
      MCPUI.resize s w hgt = (s, [(o, OutMsg.resize w hgt)]) ∧
      MCPUI.sendReady s = [(o, OutMsg.ready)] ∧
      MCPUI.sendError s code msgText = [(o, OutMsg.error code msgText)]) ∧
    (∀ (s2 : ClientState) (origin v : String) (u : Option User) (au : Option Auth)
        (ctx : Option Context) (th : Option Theme),
      (MCPUI.receiveMessage s2 origin (Msg.init v u au ctx th)).state.hostOrigin
        = some origin) := by
  refine ⟨?_, ?_, ?_⟩
  · intro h0
    simp [MCPUI.sendAction, MCPUI.requestPermission, MCPUI.resize, MCPUI.sendReady,
      MCPUI.sendError, MCPUI.sendMessageTo, h0]
  · intro o ho
    simp [MCPUI.sendAction, MCPUI.requestPermission, MCPUI.resize, MCPUI.sendReady,
      MCPUI.sendError, MCPUI.sendMessageTo, ho]
  · intro s2 origin v u au ctx th
    have hc : ¬ ((Msg.init v u au ctx th).type ≠ "init" ∧
        s2.hostOrigin.isSome ∧ s2.hostOrigin ≠ some origin) := by
      rintro ⟨h1, _, _⟩
      exact h1 rfl
    unfold MCPUI.receiveMessage
    rw [if_neg hc]
    rw [if_pos (show isHostMessage (Msg.init v u au ctx th) = true from rfl)]
    simp only [MCPUI.handleHostMessage, MCPUI.handleInit]
    by_cases hv : MCPUI.isCompatibleVersion v = true
    · simp only [hv]
      by_cases ha : au.isSome = true
      · simp only [ha, if_true, if_false]
        unfold MCPUI.validateAuthTokenSync
        rcases hau : au with _ | a2
        · simp at ha hau
          simp [hau] at ha
        · simp only []
          by_cases hj : a2.jwks_url = ""
          · simp [hj]
          · simp [hj]
      · simp [ha]
    · simp [hv]

theorem C7_sends_gated_by_host_origin_witness :
    pinnedClientState.hostOrigin = some "https://host.example" ∧
    MCPUI.sendAction pinnedClientState "go" none
      = (pinnedClientState, [("https://host.example", OutMsg.action "go" none)]) ∧
    initialClientState.hostOrigin = none ∧
    MCPUI.sendAction initialClientState "go" none = (initialClientState, []) :=
  ⟨rfl,
    ((C7_sends_gated_by_host_origin pinnedClientState "go" none "write:b" none
      none none "c" "m").2.1 "https://host.example" rfl).1,
    rfl,
    ((C7_sends_gated_by_host_origin initialClientState "go" none "write:b" none
      none none "c" "m").1 rfl).1⟩

/-! ## Event-handler registry claims -/

lemma setAdd_of_mem {α : Type} [DecidableEq α] {l : List α} {x : α} (hx : x ∈ l) :
    setAdd l x = l := by
  simp [setAdd, hx]

lemma mem_setAdd_self {α : Type} [DecidableEq α] (l : List α) (x : α) : x ∈ setAdd l x := by
  by_cases hx : x ∈ l <;> simp [setAdd, hx]

lemma setAdd_idem {α : Type} [DecidableEq α] (l : List α) (x : α) :
    setAdd (setAdd l x) x = setAdd l x :=
  setAdd_of_mem (mem_setAdd_self l x)

lemma count_setAdd_of_nodup {α : Type} [DecidableEq α] (l : List α) (x : α) (hl : l.Nodup) :
    (setAdd l x).count x = 1 := by
  by_cases hx : x ∈ l
  · rw [setAdd_of_mem hx]
    exact List.count_eq_one_of_mem hl hx
  · simp [setAdd, hx, List.count_append, List.count_eq_zero_of_not_mem hx]

lemma nodup_setAdd {α : Type} [DecidableEq α] (l : List α) (x : α) (hl : l.Nodup) :
    (setAdd l x).Nodup := by
  by_cases hx : x ∈ l
  · rw [setAdd_of_mem hx]
    exact hl
  · simp [setAdd, hx, List.nodup_append, hl]

lemma ehOn_on (m : EventHandlers) (e : String) (h : Handler) :
    ehOn (ehOn m e h) e h = ehOn m e h := by
  induction m with
  | nil => simp [ehOn, setAdd]
  | cons p rest ih =>
      by_cases hpe : p.1 == e
      · simp [ehOn, hpe, setAdd_idem]
      · simp [ehOn, hpe, ih]

lemma ehTrigger_on_count (m : EventHandlers) (e : String) (h : Handler)
    (hnd : ∀ p ∈ m, List.Nodup p.2) :
    (ehTrigger (ehOn m e h) e).count h = 1 := by
  induction m with
  | nil => simp [ehOn, ehTrigger]
  | cons p rest ih =>
      by_cases hpe : p.1 == e
      · have hp2 : List.Nodup p.2 := hnd p (by simp)
        simp [ehOn, ehTrigger, hpe, count_setAdd_of_nodup _ _ hp2]
      · simp only [ehOn, hpe, Bool.false_eq_true, if_false, ehTrigger]
        exact ih (fun q hq => hnd q (by simp [hq]))

lemma ehOff_on_not_mem (m : EventHandlers) (e : String) (h : Handler)
    (hnd : ∀ p ∈ m, List.Nodup p.2) :
    h ∉ ehTrigger (ehOff (ehOn m e h) e h) e := by
  induction m with
  | nil => simp [ehOn, ehOff, ehTrigger]
  | cons p rest ih =>
      by_cases hpe : p.1 == e
      · have hp2 : List.Nodup p.2 := hnd p (by simp)
        have hnodup : (setAdd p.2 h).Nodup := nodup_setAdd _ _ hp2
        simp only [ehOn, hpe, if_true, ehOff, ehTrigger]
        intro hmem
        exact ((List.Nodup.mem_erase_iff hnodup).1 (by simpa using hmem)).1 rfl
      · simp only [ehOn, hpe, Bool.false_eq_true, if_false, ehOff, ehTrigger]
        exact ih (fun q hq => hnd q (by simp [hq]))

lemma ehOff_not_registered (m : EventHandlers) (e : String) (h : Handler)
    (hno : h ∉ ehTrigger m e) :
    ehOff m e h = m := by
  induction m with
  | nil => rfl
  | cons p rest ih =>
      by_cases hpe : p.1 == e
      · have hmem : h ∉ p.2 := by
          intro hc
          apply hno
          simpa [ehTrigger, hpe] using hc
        simp [ehOff, hpe, List.erase_of_not_mem hmem]
      · have hrest : h ∉ ehTrigger rest e := by
          intro hc
          apply hno
          simp only [ehTrigger]
          rw [if_neg (by simpa using hpe)]
          exact hc
        simp [ehOff, hpe, ih hrest]

/-- Claim C10: the per-event handler registry shared verbatim by both engines
is set-like: registering the same handler again for the same event changes
nothing, a trigger after registration invokes the handler exactly once, a
single off removes it entirely from that event, and an off for a handler that
is not registered is a no-op. The hypothesis that each registered handler set
holds no duplicates is an invariant of every state reachable through on and
off, since a JS Set holds each member at most once. -/
theorem C10_handler_registry_set_like (m : EventHandlers) (e : String) (h : Handler)
    (hnd : ∀ p ∈ m, List.Nodup p.2) :
    ehOn (ehOn m e h) e h = ehOn m e h ∧
    (ehTrigger (ehOn m e h) e).count h = 1 ∧
    h ∉ ehTrigger (ehOff (ehOn m e h) e h) e ∧
    (h ∉ ehTrigger m e → ehOff m e h = m) :=
  ⟨ehOn_on m e h, ehTrigger_on_count m e h hnd, ehOff_on_not_mem m e h hnd,
    fun hno => ehOff_not_registered m e h hno⟩

theorem C10_handler_registry_set_like_witness :
    (∀ p ∈ [("action", [7]), ("ready", [7, 9])], List.Nodup p.2) ∧
    (ehOn (ehOn [("action", [7]), ("ready", [7, 9])] "action" 5) "action" 5
      = ehOn [("action", [7]), ("ready", [7, 9])] "action" 5) ∧
    (ehTrigger (ehOn [("action", [7]), ("ready", [7, 9])] "action" 5) "action").count 5 = 1 ∧
    5 ∉ ehTrigger (ehOff (ehOn [("action", [7]), ("ready", [7, 9])] "action" 5) "action" 5) "action" ∧
    (5 ∉ ehTrigger [("action", [7]), ("ready", [7, 9])] "action" →
      ehOff [("action", [7]), ("ready", [7, 9])] "action" 5
        = [("action", [7]), ("ready", [7, 9])]) :=
  ⟨by decide,
    C10_handler_registry_set_like [("action", [7]), ("ready", [7, 9])] "action" 5 (by decide)⟩
